import Mathlib

/-!
Verification development for the MCP chatbot repository.

This file shallowly embeds the response-handling, orchestration and
attribution logic of the repository:

* `src/mcp-chatbot/src/core/isolated_mcp_client.py` — the line-protocol
  client (`_async_call_tool`, `call_tool`, `_async_initialize`,
  `_async_initialize_server`, `_async_get_server_tools`, environment
  construction for spawned servers);
* `src/mcp-chatbot/src/core/agent.py` — the orchestration agent
  (`process_message`, `_analyze_intent`, `_validate_and_fix_tool_arguments`);
* `src/no-mcp-chatbot/functions/ec2.py` — the CloudTrail attribution
  functions (`get_ec2_instance_launcher`, `get_ec2_instance_stopper`).

External effects (JSON parsing by `json.loads`, subprocess reads, the
Bedrock model, the MCP `call_tool` round trip, CloudTrail lookups) are
modelled as explicit oracle parameters; the Python control flow around
them is translated statement by statement.  Python exceptions are
modelled with `Except PyExn`; `try`/`except` blocks become `match`es on
the `Except` value.
-/

/-- A JSON value, as produced by Python's `json.loads`.  Python dicts are
modelled as insertion-ordered association lists (Python 3.7+ dicts are
ordered, and all code under study builds dicts by literal/assignment). -/
inductive Json where
  | null
  | bool (b : Bool)
  | num (n : Int)
  | str (s : String)
  | arr (elems : List Json)
  | obj (fields : List (String × Json))
deriving Repr

mutual

/-- Structural equality of JSON values (Python `==` on parsed JSON). -/
def jsonBeq : Json → Json → Bool
  | .null, .null => true
  | .bool a, .bool b => a == b
  | .num a, .num b => a == b
  | .str a, .str b => a == b
  | .arr xs, .arr ys => jsonBeqList xs ys
  | .obj fs, .obj gs => jsonBeqFields fs gs
  | _, _ => false

/-- Elementwise equality of JSON arrays. -/
def jsonBeqList : List Json → List Json → Bool
  | [], [] => true
  | x :: xs, y :: ys => jsonBeq x y && jsonBeqList xs ys
  | _, _ => false

/-- Entrywise equality of JSON objects. -/
def jsonBeqFields : List (String × Json) → List (String × Json) → Bool
  | [], [] => true
  | p :: ps, q :: qs => p.1 == q.1 && (jsonBeq p.2 q.2 && jsonBeqFields ps qs)
  | _, _ => false

end

instance : BEq Json := ⟨jsonBeq⟩

/-- Character-list prefix test (used for substring search). -/
def listStartsWith : List Char → List Char → Bool
  | [], _ => true
  | _ :: _, [] => false
  | a :: as, b :: bs => a == b && listStartsWith as bs

/-- `containsSub hay needle`: does `needle` occur in `hay`?  Models
Python's `needle in hay` for strings. -/
def containsSub (hay needle : String) : Bool :=
  (List.range (hay.data.length + 1)).any
    (fun i => listStartsWith needle.data (hay.data.drop i))

/-- The apostrophe character, as a string. -/
def apos : String := String.mk [Char.ofNat 39]

/-- First value bound to key `k` in an association list. -/
def lookupF : List (String × Json) → String → Option Json
  | [], _ => none
  | p :: rest, k => if p.1 == k then some p.2 else lookupF rest k

/-- Does the association list bind key `k`? -/
def hasKeyF (fields : List (String × Json)) (k : String) : Bool :=
  fields.any (fun p => p.1 == k)

mutual

/-- Python's `repr` of a JSON value (used by `str` on non-strings). -/
def pyRepr : Json → String
  | .null => "None"
  | .bool true => "True"
  | .bool false => "False"
  | .num n => toString n
  | .str s => apos ++ s ++ apos
  | .arr xs => "[" ++ String.intercalate ", " (pyReprList xs) ++ "]"
  | .obj fs =>
      "\x7b" ++ String.intercalate ", " (pyReprFields fs) ++ "\x7d"

/-- `repr` of each element of a JSON array. -/
def pyReprList : List Json → List String
  | [] => []
  | x :: xs => pyRepr x :: pyReprList xs

/-- `repr` of each `key: value` entry of a JSON object. -/
def pyReprFields : List (String × Json) → List String
  | [] => []
  | p :: ps => (apos ++ p.1 ++ apos ++ ": " ++ pyRepr p.2) :: pyReprFields ps

end

/-- Python's `str()` of a JSON value: identity on strings, `repr`-style
otherwise (matching f-string interpolation of `json.loads` output). -/
def pyStr : Json → String
  | .str s => s
  | j => pyRepr j

/-- Python truthiness of a JSON value (`if value:`). -/
def pyTruthy : Json → Bool
  | .null => false
  | .bool b => b
  | .num n => n != 0
  | .str s => !s.isEmpty
  | .arr xs => !xs.isEmpty
  | .obj fs => !fs.isEmpty

/-- ASCII lowercase of one character. -/
def charLower (c : Char) : Char :=
  if 65 ≤ c.toNat ∧ c.toNat ≤ 90 then Char.ofNat (c.toNat + 32) else c

/-- Python's `str.lower()` (the strings the code lowercases — exception
texts and error messages — are ASCII). -/
def strLower (s : String) : String := String.mk (s.data.map charLower)

/-- A Python exception, as far as the embedded code distinguishes them:
`asyncio.TimeoutError`, `json.JSONDecodeError`, and everything else
(`KeyError`, `TypeError`, `AttributeError`, ... — the code only ever
inspects these through `str(e)`, so they are carried as a message). -/
inductive PyExn where
  | timeoutExn
  | jsonExn (msg : String)
  | otherExn (msg : String)
deriving Repr, BEq, DecidableEq

/-- `str(e)` for a modelled exception (`str(asyncio.TimeoutError())` is
empty). -/
def strOfExn : PyExn → String
  | .timeoutExn => ""
  | .jsonExn m => m
  | .otherExn m => m

/-- Python's `k in j` membership test, which raises `TypeError` on
non-container values. -/
def pyInE (k : String) (j : Json) : Except PyExn Bool :=
  match j with
  | .obj fields => .ok (hasKeyF fields k)
  | .str s => .ok (containsSub s k)
  | .arr xs => .ok (xs.any (fun x => x == Json.str k))
  | _ => .error (.otherExn ("TypeError: argument of type is not iterable"))

/-- Python's `j[k]` subscript with a string key: dict lookup (raising
`KeyError` when absent), `TypeError` otherwise. -/
def pyIndexE (j : Json) (k : String) : Except PyExn Json :=
  match j with
  | .obj fields =>
      match lookupF fields k with
      | some v => .ok v
      | none => .error (.otherExn ("KeyError: " ++ apos ++ k ++ apos))
  | _ => .error (.otherExn "TypeError: indices must be integers")

/-- Python's `j.get(k, dflt)`: only dicts have `.get`, everything else
raises `AttributeError`. -/
def pyGetE (j : Json) (k : String) (dflt : Json) : Except PyExn Json :=
  match j with
  | .obj fields => .ok ((lookupF fields k).getD dflt)
  | _ => .error (.otherExn "AttributeError: get")

/-- Python's `for x in j`: dict iterates keys, list iterates elements,
string iterates characters; scalars raise `TypeError`. -/
def iterElems (j : Json) : Except PyExn (List Json) :=
  match j with
  | .arr xs => .ok xs
  | .obj fs => .ok (fs.map (fun p => Json.str p.1))
  | .str s => .ok (s.data.map (fun c => Json.str (String.mk [c])))
  | _ => .error (.otherExn "TypeError: object is not iterable")

/-- Python's `k in fields` for a dict when `k` is an arbitrary value:
unhashable values (lists, dicts) raise `TypeError`; hashable non-string
values are simply never keys of these string-keyed dicts. -/
def pyDictContains (fields : List (String × Json)) (k : Json) :
    Except PyExn Bool :=
  match k with
  | .arr _ => .error (.otherExn "TypeError: unhashable type")
  | .obj _ => .error (.otherExn "TypeError: unhashable type")
  | .str s => .ok (hasKeyF fields s)
  | _ => .ok false

example : containsSub "hello world" "lo wo" = true := by decide
example : containsSub "abc" "d" = false := by decide
example : pyStr (Json.obj [("a", Json.num 1)]) = "\x7b" ++ apos ++ "a" ++ apos ++ ": 1\x7d" := by decide

/-!
## Line-Protocol Client: `_async_call_tool` / `call_tool`
(`src/mcp-chatbot/src/core/isolated_mcp_client.py`, lines 315-501)
-/

/-- A registered MCP tool (`MCPTool` dataclass).  `name`, `description`
and `input_schema` come straight out of parsed JSON, so they are JSON
values; `server_name` is set by the client itself. -/
structure MCPTool where
  name : Json
  description : Json
  input_schema : Json
  server_name : String
deriving Repr, BEq

/-- Outcome of one `await asyncio.wait_for(process.stdout.readline(), t)`:
the timeout fires, the stream is at EOF (empty line, falsy), or a line of
text arrives. -/
inductive ReadLine where
  | timeout
  | eof
  | line (s : String)
deriving Repr, BEq

/-- The `i`-th line read from the subprocess during one call.  A read the
environment never answers is a timeout. -/
def readAt (reads : List ReadLine) (i : Nat) : ReadLine :=
  reads.getD i ReadLine.timeout

/-- A JSON parser oracle standing for `json.loads` on a line of text;
`.error` carries the `JSONDecodeError` message. -/
def JParser : Type := String → Except String Json

/-- `{"error": m}` with a plain string message. -/
def errObj (m : String) : Json := Json.obj [("error", Json.str m)]

/-- Association-list lookup of a tool by qualified name
(`self.tools[tool_name]`). -/
def assocFind : List (String × MCPTool) → String → Option MCPTool
  | [], _ => none
  | p :: rest, k => if p.1 == k then some p.2 else assocFind rest k

/-- The request line written by `_async_call_tool` (lines 338-346): id is
`int(time.time())` at the moment of the call, the bare tool name and the
argument payload. -/
def toolCallRequest (now : Int) (bareName : Json) (arguments : Json) : Json :=
  Json.obj [("jsonrpc", Json.str "2.0"), ("id", Json.num now),
            ("method", Json.str "tools/call"),
            ("params", Json.obj [("name", bareName), ("arguments", arguments)])]

/-- Lines 383-393: the inner `try` that looks for `validation_failures`
inside an error notification's `data`; every failure of this block is
swallowed by its bare `except: pass`, i.e. yields `none`. -/
def tryValidationFailures (parse : JParser) (data : Json) : Option Json :=
  match pyInE "validation_failures" data with
  | .error _ => none
  | .ok false => none
  | .ok true =>
    match data with
    | .str s =>
      match parse s with
      | .error _ => none
      | .ok ed =>
        match pyInE "validation_failures" ed with
        | .error _ => none
        | .ok false => none
        | .ok true =>
          match pyIndexE ed "validation_failures" with
          | .error _ => none
          | .ok (.arr (failure :: _)) =>
            match failure with
            | .obj ffields =>
                some (errObj ("AWS CLI validation error: " ++
                  pyStr ((lookupF ffields "reason").getD
                    (Json.str "Unknown validation error"))))
            | _ => none
          | .ok _ => none
    | _ => none

/-- Lines 400-414: after a notification without a usable `level`, wait
(10s timeout) for exactly one more line and treat it as the response. -/
def afterNotificationRead (parse : JParser) (reads : List ReadLine)
    (standard : Json → Except PyExn Json) : Except PyExn Json :=
  match readAt reads 1 with
  | .timeout => .ok (errObj "Timeout waiting for response after notification")
  | .eof => .ok (errObj "No response after notification")
  | .line s =>
    match parse s with
    | .error m => .error (.jsonExn m)
    | .ok r2 => standard r2

/-- Lines 416-433: standard JSON-RPC response handling — `error` field
first, then `result`, else "Invalid response format".  Note that the
response id is never consulted. -/
def standardResponse (r : Json) : Except PyExn Json :=
  match pyInE "error" r with
  | .error e => .error e
  | .ok true =>
    match pyIndexE r "error" with
    | .error e => .error e
    | .ok errv =>
      match pyGetE errv "message" (Json.str (pyStr errv)) with
      | .error e => .error e
      | .ok msg => .ok (Json.obj [("error", msg)])
  | .ok false =>
    match pyInE "result" r with
    | .error e => .error e
    | .ok true =>
      match pyIndexE r "result" with
      | .error e => .error e
      | .ok res => .ok (Json.obj [("result", res)])
    | .ok false => .ok (errObj "Invalid response format")

/-- Line 372: `"method" in response and response["method"] ==
"notifications/message"`. -/
def isMsgNotificationE (response : Json) : Except PyExn Bool :=
  match pyInE "method" response with
  | .error e => .error e
  | .ok false => .ok false
  | .ok true =>
    match pyIndexE response "method" with
    | .error e => .error e
    | .ok m => .ok (m == Json.str "notifications/message")

/-- Lines 374-414: handling of a `notifications/message` line.  A
notification whose `params` carry a `level` becomes the final outcome (an
error dict); only a notification without a `level` leads to reading one
further line. -/
def notificationPath (parse : JParser) (reads : List ReadLine)
    (response : Json) : Except PyExn Json :=
  match pyInE "params" response with
  | .error e => .error e
  | .ok false => afterNotificationRead parse reads standardResponse
  | .ok true =>
    match pyIndexE response "params" with
    | .error e => .error e
    | .ok params =>
      match pyInE "level" params with
      | .error e => .error e
      | .ok false => afterNotificationRead parse reads standardResponse
      | .ok true =>
        match pyIndexE params "level" with
        | .error e => .error e
        | .ok level =>
          match pyGetE params "data" (Json.str "No details provided") with
          | .error e => .error e
          | .ok data =>
            if level == Json.str "error" then
              match tryValidationFailures parse data with
              | some out => .ok out
              | none => .ok (errObj ("Server error: " ++ pyStr data))
            else
              .ok (errObj ("Server notification (" ++ pyStr level ++ "): " ++
                pyStr data))

/-- Lines 351-446, the body of the outer `try` of `_async_call_tool`
after the request has been written: read a line, dispatch on its shape.
Exceptions (`.error`) are those reaching the outer handlers. -/
def callToolTry (parse : JParser) (reads : List ReadLine) :
    Except PyExn Json :=
  match readAt reads 0 with
  | .timeout => .error .timeoutExn
  | .eof => .ok (errObj "No response from server")
  | .line s =>
    match parse s with
    | .error m => .error (.jsonExn m)
    | .ok response =>
      match isMsgNotificationE response with
      | .error e => .error e
      | .ok true => notificationPath parse reads response
      | .ok false => standardResponse response

/-- `_async_call_tool` (lines 315-446): tool lookup, server liveness
check, then the `try` body with its three `except` handlers
(`asyncio.TimeoutError`, `json.JSONDecodeError`, `Exception`). -/
def asyncCallTool (parse : JParser) (tools : List (String × MCPTool))
    (serverNames : List String) (toolName : String)
    (reads : List ReadLine) : Json :=
  match assocFind tools toolName with
  | none => errObj ("Tool " ++ toolName ++ " not found")
  | some tool =>
    if serverNames.contains tool.server_name then
      match callToolTry parse reads with
      | .ok j => j
      | .error .timeoutExn => errObj "Tool call timeout"
      | .error (.jsonExn m) => errObj ("JSON decode error: " ++ m)
      | .error (.otherExn m) => errObj m
    else errObj ("Server " ++ tool.server_name ++ " not available")

/-- Outcome of `_run_in_loop` as seen by `call_tool`: either the
coroutine ran (its value is `asyncCallTool ...`), or an exception was
raised crossing threads (`RuntimeError("MCP event loop not running")`,
`future.result(timeout=60)` expiry, ...), carried as `str(e)`. -/
inductive LoopRun where
  | ok
  | raised (msg : String)
deriving Repr, BEq

/-- `call_tool` (lines 492-501), the thread-safe synchronous wrapper. -/
def call_tool (initialized : Bool) (loopRun : LoopRun) (parse : JParser)
    (tools : List (String × MCPTool)) (serverNames : List String)
    (toolName : String) (reads : List ReadLine) : Json :=
  if !initialized then errObj "MCP client not initialized"
  else
    match loopRun with
    | .ok => asyncCallTool parse tools serverNames toolName reads
    | .raised m => errObj m

example :
    asyncCallTool (fun _ => .error "no json") [] [] "t" [] =
      errObj "Tool t not found" := by rfl

example :
    asyncCallTool
      (fun s => if s == "r" then
          .ok (Json.obj [("jsonrpc", Json.str "2.0"), ("id", Json.num 7),
                         ("result", Json.str "ok")])
        else .error "bad")
      [("aws-api:call_aws",
        ⟨Json.str "call_aws", Json.str "d", Json.obj [], "aws-api"⟩)]
      ["aws-api"] "aws-api:call_aws" [ReadLine.line "r"] =
      Json.obj [("result", Json.str "ok")] := by rfl

example :
    asyncCallTool (fun _ => .error "oops")
      [("a:t", ⟨Json.str "t", Json.str "d", Json.obj [], "a"⟩)]
      ["a"] "a:t" [] = errObj "Tool call timeout" := by rfl

/-!
## Server initialization
(`isolated_mcp_client.py`: `_async_initialize` lines 84-107,
`_async_initialize_server` lines 109-264, `_async_get_server_tools`
lines 266-313)
-/

/-- The environment's answers to one server's initialization: whether the
subprocess could be spawned at all (`uvx` found and
`create_subprocess_exec` succeeded), the line read for the `initialize`
handshake, and the line read for `tools/list`. -/
structure ServerRun where
  launchOk : Bool
  handshakeLine : ReadLine
  toolsLine : ReadLine
deriving Repr, BEq

/-- One configured server: its name, its configured command (only
`"uvx"` servers are initialized), and its runtime behaviour. -/
structure ServerSpec where
  name : String
  command : String
  run : ServerRun
deriving Repr, BEq

/-- Lines 222-234: the handshake read.  A timeout, an empty line, a
malformed line, or a response carrying an `error` field all raise out of
`_async_initialize_server` (whose own `except` re-raises, line 262-264). -/
def handshakeResult (parse : JParser) (l : ReadLine) : Except String Unit :=
  match l with
  | .timeout => .error "asyncio.TimeoutError"
  | .eof => .error "No response from server"
  | .line s =>
    match parse s with
    | .error m => .error m
    | .ok resp =>
      match pyInE "error" resp with
      | .error e => .error (strOfExn e)
      | .ok true =>
        match pyIndexE resp "error" with
        | .ok v => .error ("Server initialization error: " ++ pyStr v)
        | .error e => .error (strOfExn e)
      | .ok false => .ok ()

/-- One entry of the `tools/list` result: `tool_data["name"]`,
`tool_data["description"]`, `tool_data.get("inputSchema", {})`, keyed as
`f"{server_name}:{tool.name}"`. -/
def extractTool (serverName : String) (td : Json) :
    Except PyExn (String × MCPTool) :=
  match pyIndexE td "name" with
  | .error e => .error e
  | .ok n =>
    match pyIndexE td "description" with
    | .error e => .error e
    | .ok d =>
      match pyGetE td "inputSchema" (Json.obj []) with
      | .error e => .error e
      | .ok sch => .ok (serverName ++ ":" ++ pyStr n, ⟨n, d, sch, serverName⟩)

/-- The registration loop of `_async_get_server_tools` (lines 298-305):
tools are registered one by one, so an exception mid-loop (caught by the
function's `except`) keeps the earlier registrations and drops the rest. -/
def collectTools (serverName : String) : List Json → List (String × MCPTool)
  | [] => []
  | td :: rest =>
    match extractTool serverName td with
    | .error _ => []
    | .ok pair => pair :: collectTools serverName rest

/-- `_async_get_server_tools` (lines 266-313): every failure here is
soft — logged and treated as zero (or partially many) tools. -/
def toolsFromServer (parse : JParser) (serverName : String) (l : ReadLine) :
    List (String × MCPTool) :=
  match l with
  | .timeout => []
  | .eof => []
  | .line s =>
    match parse s with
    | .error _ => []
    | .ok resp =>
      match pyInE "result" resp with
      | .error _ => []
      | .ok false => []
      | .ok true =>
        match pyIndexE resp "result" with
        | .error _ => []
        | .ok res =>
          match pyInE "tools" res with
          | .error _ => []
          | .ok false => []
          | .ok true =>
            match pyIndexE res "tools" with
            | .error _ => []
            | .ok tl =>
              match iterElems tl with
              | .error _ => []
              | .ok elems => collectTools serverName elems

/-- The client's registry: `self.tools` (qualified name → tool, a dict,
so re-registration replaces) and the keys of `self._server_data`. -/
structure CatalogState where
  tools : List (String × MCPTool)
  servers : List String
deriving Repr, BEq

/-- Python dict assignment `m[k] = v`: replace in place, or append. -/
def insertTool (m : List (String × MCPTool)) (k : String) (v : MCPTool) :
    List (String × MCPTool) :=
  if m.any (fun p => p.1 == k) then
    m.map (fun p => if p.1 == k then (k, v) else p)
  else m ++ [(k, v)]

/-- `self._server_data[name] = {...}`: record the server name. -/
def addServer (l : List String) (n : String) : List String :=
  if l.contains n then l else l ++ [n]

/-- `_async_initialize_server` for one server, as it affects the
registry: launch, handshake, tool listing, registration.  `.error` is an
exception propagating out (to be caught by the loop in
`_async_initialize`). -/
def initServerE (parse : JParser) (st : CatalogState) (s : ServerSpec) :
    Except String CatalogState :=
  if !s.run.launchOk then .error "uvx command not found"
  else
    match handshakeResult parse s.run.handshakeLine with
    | .error m => .error m
    | .ok _ =>
      let newTools := toolsFromServer parse s.name s.run.toolsLine
      .ok { tools := newTools.foldl (fun m p => insertTool m p.1 p.2) st.tools,
            servers := addServer st.servers s.name }

/-- The per-server `try`/`except ... continue` of `_async_initialize`
(lines 100-105). -/
def initStep (parse : JParser) (st : CatalogState) (s : ServerSpec) :
    CatalogState :=
  match initServerE parse st s with
  | .ok st2 => st2
  | .error _ => st

/-- `_async_initialize` (lines 84-107): keep only servers configured with
command `uvx`, then initialize each in turn, ignoring per-server
failures. -/
def initAll (parse : JParser) (specs : List ServerSpec) : CatalogState :=
  (specs.filter (fun s => s.command == "uvx")).foldl (initStep parse) ⟨[], []⟩

/-!
## Environment construction for a spawned server
(`_async_initialize_server`, lines 128-197)
-/

/-- First binding of `k` in an environment (Python dicts are unique-keyed,
so this is dict lookup). -/
def envLookup : List (String × String) → String → Option String
  | [], _ => none
  | p :: rest, k => if p.1 == k then some p.2 else envLookup rest k

/-- `env[k] = v` on a dict: replace the existing binding in place, or
append a new one (environments are unique-keyed, as Python dicts are). -/
def envUpdate : List (String × String) → String → String →
    List (String × String)
  | [], k, v => [(k, v)]
  | p :: rest, k, v =>
    if p.1 == k then (k, v) :: rest else p :: envUpdate rest k v

/-- `env.update(overrides)` (applied pairwise in order). -/
def envUpdateMany (e overrides : List (String × String)) :
    List (String × String) :=
  overrides.foldl (fun acc p => envUpdate acc p.1 p.2) e

/-- Line 160-163: the fixed allow-list of AWS variables re-copied from
`os.environ`. -/
def awsEnvVars : List String :=
  ["AWS_PROFILE", "AWS_REGION", "AWS_DEFAULT_REGION",
   "AWS_ACCESS_KEY_ID", "AWS_SECRET_ACCESS_KEY", "AWS_SESSION_TOKEN"]

/-- What the `configparser` read of `~/.aws/credentials` yields for the
`default` profile (lines 141-157); `none` stands for "no default section
or the read raised" (the exception is caught and ignored). -/
structure CredDefault where
  accessKey : Option String
  secretKey : Option String
deriving Repr, BEq

/-- Lines 141-157: if the credentials file exists, overwrite the two key
variables with the `default` profile's values (when present); a failed
read is caught and skipped. -/
def envCredStage (credentialsFileExists : Bool) (credDefault : Option CredDefault)
    (e : List (String × String)) : List (String × String) :=
  if credentialsFileExists then
    match credDefault with
    | some cred =>
      let e1 :=
        match cred.accessKey with
        | some v => envUpdate e "AWS_ACCESS_KEY_ID" v
        | none => e
      match cred.secretKey with
      | some v => envUpdate e1 "AWS_SECRET_ACCESS_KEY" v
      | none => e1
    | none => e
  else e

/-- Lines 129-157: parent environment, overlaid with the server's
configured overrides (an empty list models `server_config.env` being
falsy — the result is the same), then — when `~/.aws` exists — the two
credential file path variables and the credential-file values. -/
def envOverlayStage (parentEnv serverEnv : List (String × String))
    (awsHome : String) (awsHomeExists credentialsFileExists : Bool)
    (credDefault : Option CredDefault) : List (String × String) :=
  let e := envUpdateMany parentEnv serverEnv
  if awsHomeExists then
    envCredStage credentialsFileExists credDefault
      (envUpdate (envUpdate e "AWS_CONFIG_FILE" (awsHome ++ "/config"))
        "AWS_SHARED_CREDENTIALS_FILE" (awsHome ++ "/credentials"))
  else e

/-- The allow-list pass (lines 159-168) over an arbitrary variable list:
`if var in os.environ: env[var] = os.environ[var]` — NOTE the value is
re-read from the PARENT environment. -/
def envAllowFold (parentEnv : List (String × String)) (vars : List String)
    (e : List (String × String)) : List (String × String) :=
  vars.foldl (fun acc v =>
    match envLookup parentEnv v with
    | some x => envUpdate acc v x
    | none => acc) e

/-- The allow-list pass with the fixed variable list. -/
def envAllowStage (parentEnv e : List (String × String)) :
    List (String × String) :=
  envAllowFold parentEnv awsEnvVars e

/-- Lines 173-176: supply the default region when neither region variable
is set. -/
def envRegionStage (e : List (String × String)) : List (String × String) :=
  if (envLookup e "AWS_REGION").isNone &&
      (envLookup e "AWS_DEFAULT_REGION").isNone then
    envUpdate e "AWS_DEFAULT_REGION" "ca-central-1"
  else e

/-- Lines 128-176: the environment handed to the spawned subprocess.
`parentEnv` is `os.environ`, `serverEnv` the server's configured
overrides.  Note the order: overrides, then credential-file values, then
the allow-list re-copy FROM THE PARENT, then the default region. -/
def computeServerEnv (parentEnv serverEnv : List (String × String))
    (awsHome : String) (awsHomeExists credentialsFileExists : Bool)
    (credDefault : Option CredDefault) : List (String × String) :=
  envRegionStage (envAllowStage parentEnv
    (envOverlayStage parentEnv serverEnv awsHome awsHomeExists
      credentialsFileExists credDefault))

example :
    computeServerEnv [("PATH", "/bin")] [] "/h/.aws" false false none =
      [("PATH", "/bin"), ("AWS_DEFAULT_REGION", "ca-central-1")] := by rfl

example :
    computeServerEnv [("AWS_REGION", "eu-west-1")]
      [("AWS_REGION", "us-west-2")] "/h/.aws" false false none =
      [("AWS_REGION", "eu-west-1")] := by rfl

/-!
## Orchestration Agent
(`src/mcp-chatbot/src/core/agent.py`)
-/

/-- First index of character `c` in `cs`. -/
def firstIdxOf (cs : List Char) (c : Char) : Option Nat :=
  cs.findIdx? (fun x => x == c)

/-- Last index of character `c` in `cs`. -/
def lastIdxOf (cs : List Char) (c : Char) : Option Nat :=
  match (cs.reverse).findIdx? (fun x => x == c) with
  | none => none
  | some k => some (cs.length - 1 - k)

/-- The opening and closing brace characters. -/
def openBrace : Char := Char.ofNat 123
def closeBrace : Char := Char.ofNat 125

/-- Line 309: `re.search(r'\x7b.*\x7d', response, re.DOTALL)` — the
leftmost-then-greedy match runs from the first opening brace to the LAST
closing brace of the whole text (not the first balanced object). -/
def extractJson (s : String) : Option String :=
  let cs := s.data
  match lastIdxOf cs closeBrace with
  | none => none
  | some q =>
    match firstIdxOf cs openBrace with
    | none => none
    | some p =>
      if p < q then some (String.mk ((cs.drop p).take (q - p + 1))) else none

/-- `_analyze_intent` (lines 303-328), as a function of the Bedrock call
outcome: every failure path degrades to `needs_tools: false` with a
`reasoning` string. -/
def analyzeIntent (parse : JParser) (bedrock : Except String String) : Json :=
  match bedrock with
  | .error e =>
      Json.obj [("needs_tools", Json.bool false),
                ("reasoning", Json.str ("Analysis error: " ++ e))]
  | .ok response =>
    match extractJson response with
    | none =>
        Json.obj [("needs_tools", Json.bool false),
                  ("reasoning", Json.str "Could not parse intent")]
    | some jstr =>
      match parse jstr with
      | .error m =>
          Json.obj [("needs_tools", Json.bool false),
                    ("reasoning", Json.str ("JSON parse error: " ++ m))]
      | .ok j => j

/-- The fixed per-tool legacy-alias table of
`_validate_and_fix_tool_arguments` (lines 448-464). -/
def aliasTable (toolName : Json) : List (String × String) :=
  if toolName == Json.str "aws-api:call_aws" then [("command", "cli_command")]
  else if toolName == Json.str "aws-api:suggest_aws_commands" then
    [("command", "query")]
  else if toolName == Json.str "aws-docs:search_documentation" then
    [("search", "search_phrase")]
  else []

/-- `if src in d and tgt not in d: d[tgt] = d.pop(src)` — pop removes the
binding, the assignment appends the new key at the end. -/
def renameKey (fields : List (String × Json)) (src tgt : String) :
    List (String × Json) :=
  if hasKeyF fields src && !hasKeyF fields tgt then
    (fields.filter (fun p => p.1 != src)) ++
      [(tgt, (lookupF fields src).getD Json.null)]
  else fields

/-- Apply the tool's alias renames in order. -/
def aliasFix (toolName : Json) (fields : List (String × Json)) :
    List (String × Json) :=
  (aliasTable toolName).foldl (fun fs p => renameKey fs p.1 p.2) fields

/-- `schema['properties'].keys()` — non-dicts have no `.keys()`. -/
def jsonKeys (j : Json) : Except PyExn (List String) :=
  match j with
  | .obj fs => .ok (fs.map (fun p => p.1))
  | _ => .error (.otherExn "AttributeError: keys")

/-- The missing-required-parameters loop (lines 484-487): iterate the
declared `required` list and membership-test each entry against the
arguments; the outcome is only logged, but the iteration itself can
raise. -/
def checkRequired (fields : List (String × Json)) :
    List Json → Except PyExn Unit
  | [] => .ok ()
  | r :: rest =>
    match pyDictContains fields r with
    | .error e => .error e
    | .ok _ => checkRequired fields rest

/-- Lines 472-503: the schema-validation half of
`_validate_and_fix_tool_arguments`: skipped entirely for a falsy schema
or one without a `properties` key; the missing-required check only logs;
unknown keys are dropped. -/
def schemaFilter (schema : Json) (fields : List (String × Json)) :
    Except PyExn (List (String × Json)) :=
  if !(pyTruthy schema) then .ok fields
  else
    match pyInE "properties" schema with
    | .error e => .error e
    | .ok false => .ok fields
    | .ok true =>
      match pyGetE schema "required" (Json.arr []) with
      | .error e => .error e
      | .ok requiredv =>
        match pyIndexE schema "properties" with
        | .error e => .error e
        | .ok propsv =>
          match jsonKeys propsv with
          | .error e => .error e
          | .ok avail =>
            match iterElems requiredv with
            | .error e => .error e
            | .ok reqElems =>
              match checkRequired fields reqElems with
              | .error e => .error e
              | .ok _ => .ok (fields.filter (fun p => avail.contains p.1))

/-- `_validate_and_fix_tool_arguments` (lines 429-506).  An unknown tool
name returns the arguments untouched; for a known tool, `arguments.copy()`
requires a dict, then aliases are renamed and unknown keys dropped. -/
def validateAndFix (tools : List (String × MCPTool)) (toolName : Json)
    (args : Json) : Except PyExn Json :=
  match toolName with
  | .arr _ => .error (.otherExn "TypeError: unhashable type")
  | .obj _ => .error (.otherExn "TypeError: unhashable type")
  | .str s =>
    match assocFind tools s with
    | none => .ok args
    | some tool =>
      match args with
      | .obj fields =>
        match schemaFilter tool.input_schema (aliasFix toolName fields) with
        | .error e => .error e
        | .ok fields2 => .ok (Json.obj fields2)
      | _ => .error (.otherExn "AttributeError: copy")
  | _ => .ok args

/-- One recorded tool outcome (`tool_results` entry, lines 134-165):
`{"tool": .., "result": .., ["fallback_reason": ..]}`. -/
structure ToolRecord where
  tool : Json
  result : Json
  fallback_reason : Option String
deriving Repr, BEq

/-- The inner `try`/`except` body for one requested call (lines 98-165):
validate/repair, invoke, on a validation-shaped string error from
`aws-api:call_aws` with a `cli_command` argument try
`aws-api:suggest_aws_commands` once with the original user message as
query.  Returns the recorded outcome plus the trace of `call_tool`
invocations actually issued (name, arguments). -/
def execOneInner (tools : List (String × MCPTool)) (ct : Json → Json → Json)
    (userMessage : String) (name origArgs : Json) :
    ToolRecord × List (Json × Json) :=
  match validateAndFix tools name origArgs with
  | .error e => ({tool := name, result := errObj (strOfExn e),
                  fallback_reason := none}, [])
  | .ok fixed =>
    let result := ct name fixed
    let trace0 := [(name, fixed)]
    match pyInE "error" result with
    | .error e => ({tool := name, result := errObj (strOfExn e),
                    fallback_reason := none}, trace0)
    | .ok false => ({tool := name, result := result,
                     fallback_reason := none}, trace0)
    | .ok true =>
      match pyIndexE result "error" with
      | .error e => ({tool := name, result := errObj (strOfExn e),
                      fallback_reason := none}, trace0)
      | .ok (.str emsg) =>
        if containsSub (strLower emsg) "validation" ||
            containsSub (strLower emsg) "parameters" then
          if name == Json.str "aws-api:call_aws" then
            match pyInE "cli_command" fixed with
            | .error e => ({tool := name, result := errObj (strOfExn e),
                            fallback_reason := none}, trace0)
            | .ok true =>
              let sq := Json.obj [("query", Json.str userMessage)]
              let sugg := ct (Json.str "aws-api:suggest_aws_commands") sq
              let trace1 := trace0 ++
                [(Json.str "aws-api:suggest_aws_commands", sq)]
              match pyInE "result" sugg with
              | .error e => ({tool := name, result := errObj (strOfExn e),
                              fallback_reason := none}, trace1)
              | .ok true =>
                  ({tool := Json.str "aws-api:suggest_aws_commands",
                    result := sugg,
                    fallback_reason := some
                      ("Original command failed validation: " ++ emsg)},
                   trace1)
              | .ok false => ({tool := name, result := result,
                               fallback_reason := none}, trace1)
            | .ok false => ({tool := name, result := result,
                             fallback_reason := none}, trace0)
          else ({tool := name, result := result,
                 fallback_reason := none}, trace0)
        else ({tool := name, result := result, fallback_reason := none},
              trace0)
      | .ok _ =>
          ({tool := name, result := errObj "AttributeError: lower",
            fallback_reason := none}, trace0)

/-- Lines 88-165 for one `tool_call` entry.  `tool_call["name"]` (line 89)
and `tool_call.get("arguments", {})` (line 95) are evaluated BEFORE the
inner `try`, so their exceptions propagate to `process_message`'s outer
handler; everything else is absorbed by the inner `except` into a
recorded `{"error": str(e)}` outcome. -/
def execOneToolCall (tools : List (String × MCPTool))
    (ct : Json → Json → Json) (userMessage : String) (entry : Json) :
    Except PyExn (ToolRecord × List (Json × Json)) :=
  match pyIndexE entry "name" with
  | .error e => .error e
  | .ok name =>
    match pyGetE entry "arguments" (Json.obj []) with
    | .error e => .error e
    | .ok origArgs => .ok (execOneInner tools ct userMessage name origArgs)

/-- The `for` loop over requested tool calls: a failing call records its
error and the loop continues with the next call. -/
def execTools (tools : List (String × MCPTool)) (ct : Json → Json → Json)
    (userMessage : String) :
    List Json → Except PyExn (List ToolRecord × List (Json × Json))
  | [] => .ok ([], [])
  | entry :: rest =>
    match execOneToolCall tools ct userMessage entry with
    | .error e => .error e
    | .ok rc =>
      match execTools tools ct userMessage rest with
      | .error e => .error e
      | .ok acc => .ok (rc.1 :: acc.1, rc.2 ++ acc.2)

/-- The body of `process_message`'s outer `try` (lines 76-186):
intent analysis, optional tool execution, reply generation.  `genReply`
models `_generate_response`, which catches its own exceptions and always
returns a string.  (The conversation-history append of step 4 has no
bearing on the claims and is not tracked.)  The value is (reply, recorded
tool results, trace of issued calls). -/
def processMessageBody (parse : JParser) (tools : List (String × MCPTool))
    (ct : Json → Json → Json)
    (genReply : String → Json → List ToolRecord → String)
    (intentBedrock : Except String String) (userMessage : String) :
    Except PyExn (String × List ToolRecord × List (Json × Json)) :=
  let intent := analyzeIntent parse intentBedrock
  match pyGetE intent "needs_tools" (Json.bool false) with
  | .error e => .error e
  | .ok needsVal =>
    if pyTruthy needsVal then
      match pyGetE intent "tool_calls" (Json.arr []) with
      | .error e => .error e
      | .ok tcs =>
        match iterElems tcs with
        | .error e => .error e
        | .ok entries =>
          match execTools tools ct userMessage entries with
          | .error e => .error e
          | .ok rt => .ok (genReply userMessage intent rt.1, rt.1, rt.2)
    else .ok (genReply userMessage intent [], [], [])

/-- Lines 195-202: the missing-credentials fallback message. -/
def credentialsFallback : String :=
  "Je suis désolé, il y a un problème avec les identifiants AWS. \n\n" ++
  "Veuillez configurer vos identifiants AWS :\n" ++
  "1. Utilisez `aws configure` pour configurer vos identifiants\n" ++
  "2. Ou définissez les variables d" ++ apos ++
  "environnement AWS_ACCESS_KEY_ID et AWS_SECRET_ACCESS_KEY\n" ++
  "3. Ou utilisez un profil AWS avec `export AWS_PROFILE=votre-profil`\n\n" ++
  "Une fois configuré, redémarrez l" ++ apos ++ "application."

/-- Line 205: the request-validation fallback message. -/
def validationFallback : String :=
  "Je suis désolé, il y a eu un problème avec la validation de la requête. Veuillez réessayer."

/-- Line 208: the rate-limiting fallback message. -/
def throttlingFallback : String :=
  "Je suis désolé, il y a eu trop de requêtes. Veuillez attendre un moment et réessayer."

/-- Lines 211-217: the event-loop-conflict fallback message. -/
def eventLoopFallback : String :=
  "Je suis désolé, il y a eu un problème technique avec les boucles d" ++
  apos ++ "événements asynchrones. \n\n" ++
  "Cela peut être résolu en redémarrant l" ++ apos ++
  "application. Veuillez :\n" ++
  "1. Arrêter l" ++ apos ++ "application (Ctrl+C)\n" ++
  "2. Redémarrer avec ./run.sh\n\n" ++
  "Si le problème persiste, il pourrait y avoir un conflit dans l" ++
  apos ++ "environnement d" ++ apos ++ "exécution."

/-- The generic last-resort fallback (line 220). -/
def genericFallback (e : String) : String :=
  "Je suis désolé, une erreur s" ++ apos ++ "est produite: " ++ e

/-- Lines 188-220: the outer `except` of `process_message`, selecting a
user-facing message by substring-matching `str(e)`. -/
def fallbackMessage (e : String) : String :=
  if containsSub e "Unable to locate credentials" then credentialsFallback
  else if containsSub e "ValidationException" then validationFallback
  else if containsSub e "ThrottlingException" then throttlingFallback
  else if containsSub (strLower e) "event loop" ||
      containsSub (strLower e) "asyncio" then eventLoopFallback
  else genericFallback e

/-- `process_message` (lines 63-220): the body wrapped in the
catch-all. -/
def process_message (parse : JParser) (tools : List (String × MCPTool))
    (ct : Json → Json → Json)
    (genReply : String → Json → List ToolRecord → String)
    (intentBedrock : Except String String) (userMessage : String) : String :=
  match processMessageBody parse tools ct genReply intentBedrock userMessage with
  | .ok r => r.1
  | .error e => fallbackMessage (strOfExn e)

example :
    extractJson "ab" = none := by rfl

example :
    analyzeIntent (fun _ => .error "x") (.ok "no json here") =
      Json.obj [("needs_tools", Json.bool false),
                ("reasoning", Json.str "Could not parse intent")] := by rfl

/-!
## CloudTrail attribution
(`src/no-mcp-chatbot/functions/ec2.py`, lines 105-189)
-/

/-- One CloudTrail event as consumed by the attribution functions: the
`ResourceName`s of its `Resources`, its `Username`, and its `EventTime`
(rendered as a string). -/
structure CTEvent where
  resources : List String
  username : String
  eventTime : String
deriving Repr, BEq

/-- The `LookupAttributes` list built by `get_ec2_instance_launcher`
(lines 110-121), each `{'AttributeKey': k, 'AttributeValue': v}` entry as
a pair. -/
def launcherLookupAttributes (instance_id : String) :
    List (String × String) :=
  [("ResourceName", instance_id), ("EventName", "StartInstances")]

/-- The `LookupAttributes` list built by `get_ec2_instance_stopper`
(lines 153-164). -/
def stopperLookupAttributes (instance_id : String) :
    List (String × String) :=
  [("ResourceName", instance_id), ("EventName", "StartInstances")]

/-- First event whose resources name the instance and whose `Username` is
truthy — the event at which the Python loop `break`s. -/
def findHit (iid : String) : List CTEvent → Option CTEvent
  | [] => none
  | e :: rest =>
    if e.resources.any (fun r => r == iid) && !e.username.isEmpty then
      some e
    else findHit iid rest

/-- `str(NameError)` for a variable the loop never bound. -/
def nameErrStr (v : String) : String :=
  "name " ++ apos ++ v ++ apos ++ " is not defined"

/-- The event-scanning loop shared verbatim by both attribution functions
(lines 122-143 and 165-186), parameterized by the result key and the
no-events message.  Mirrors the Python scoping quirks: with zero events
`username` is unbound (`NameError`, caught, returned as `str(e)`); if the
loop completes but the LAST event named the instance with a falsy
username, `result` is unbound instead. -/
def attributionScan (iid byKey notFoundMsg : String)
    (events : List CTEvent) : Json :=
  match events with
  | [] => Json.str (nameErrStr "username")
  | _ :: _ =>
    match findHit iid events with
    | some e =>
        Json.obj [("InstanceId", Json.str iid),
                  (byKey, Json.str e.username),
                  ("Event_Time", Json.str e.eventTime)]
    | none =>
      match events.getLast? with
      | some lastE =>
        if lastE.resources.any (fun r => r == iid) then
          Json.str (nameErrStr "result")
        else
          Json.obj [("InstanceId", Json.str iid),
                    (byKey, Json.str notFoundMsg)]
      | none => Json.obj []

/-- `get_ec2_instance_launcher` (lines 105-146); `ctLookup` models
`cloudtrail.lookup_events` restricted to the given attributes. -/
def get_ec2_instance_launcher
    (ctLookup : List (String × String) → List CTEvent)
    (instance_id : String) : Json :=
  attributionScan instance_id "Launched_By" "No launch events found for instance"
    (ctLookup (launcherLookupAttributes instance_id))

/-- `get_ec2_instance_stopper` (lines 148-189). -/
def get_ec2_instance_stopper
    (ctLookup : List (String × String) → List CTEvent)
    (instance_id : String) : Json :=
  attributionScan instance_id "Stopped_By" "No stop events found for instance"
    (ctLookup (stopperLookupAttributes instance_id))

example :
    get_ec2_instance_launcher (fun _ => [⟨["i-1"], "alice", "t0"⟩]) "i-1" =
      Json.obj [("InstanceId", Json.str "i-1"),
                ("Launched_By", Json.str "alice"),
                ("Event_Time", Json.str "t0")] := by rfl

/-!
## Claim theorems
-/

/-- The only dictionary shapes the `_async_call_tool` family may return:
a single-field `{"result": ..}` or a single-field `{"error": ..}`. -/
def isCallResultShape (j : Json) : Prop :=
  (∃ v, j = Json.obj [("result", v)]) ∨ (∃ v, j = Json.obj [("error", v)])

lemma errObj_shape (m : String) : isCallResultShape (errObj m) :=
  Or.inr ⟨Json.str m, rfl⟩

lemma tryValidationFailures_shape (parse : JParser) (d out : Json)
    (h : tryValidationFailures parse d = some out) : isCallResultShape out := by
  unfold tryValidationFailures at h
  repeat' split at h
  all_goals first
    | exact Option.noConfusion h
    | (injection h with h; subst h; exact errObj_shape _)

lemma standardResponse_shape (r j : Json)
    (h : standardResponse r = .ok j) : isCallResultShape j := by
  unfold standardResponse at h
  repeat' split at h
  all_goals first
    | exact Except.noConfusion h
    | (injection h with h; subst h;
        first
          | exact Or.inr ⟨_, rfl⟩
          | exact Or.inl ⟨_, rfl⟩)

lemma afterNotificationRead_shape (parse : JParser) (reads : List ReadLine)
    (j : Json) (h : afterNotificationRead parse reads standardResponse = .ok j) :
    isCallResultShape j := by
  unfold afterNotificationRead at h
  repeat' split at h
  all_goals first
    | exact Except.noConfusion h
    | (injection h with h; subst h; exact errObj_shape _)
    | exact standardResponse_shape _ _ h

lemma notificationPath_shape (parse : JParser) (reads : List ReadLine)
    (response j : Json) (h : notificationPath parse reads response = .ok j) :
    isCallResultShape j := by
  unfold notificationPath at h
  repeat' split at h
  all_goals first
    | exact Except.noConfusion h
    | exact afterNotificationRead_shape _ _ _ h
    | (injection h with h; subst h;
        first
          | exact errObj_shape _
          | exact tryValidationFailures_shape _ _ _ (by assumption))

lemma callToolTry_shape (parse : JParser) (reads : List ReadLine) (j : Json)
    (h : callToolTry parse reads = .ok j) : isCallResultShape j := by
  unfold callToolTry at h
  repeat' split at h
  all_goals first
    | exact Except.noConfusion h
    | (injection h with h; subst h; exact errObj_shape _)
    | exact notificationPath_shape _ _ _ _ h
    | exact standardResponse_shape _ _ h

/-- C1: for every tool name and argument payload (and whatever the
subprocess answers), the tool-call path of the isolated client —
`_async_call_tool` wrapped by `call_tool` — returns a dictionary of shape
`{"result": ..}` on success or `{"error": ..}` on every recognized
failure path (explicit error field, timeout, malformed JSON, EOF,
notification shapes, cross-thread failures), and never raises past this
boundary: the function is total into result/error dictionaries. -/
theorem call_tool_returns_result_or_error_dict
    (initialized : Bool) (loopRun : LoopRun) (parse : JParser)
    (tools : List (String × MCPTool)) (serverNames : List String)
    (toolName : String) (reads : List ReadLine) :
    isCallResultShape
      (call_tool initialized loopRun parse tools serverNames toolName reads) := by
  unfold call_tool asyncCallTool
  repeat' split
  all_goals first
    | exact errObj_shape _
    | exact callToolTry_shape _ _ _ (by assumption)

/-- C10: the stopper attribution function builds exactly the same
CloudTrail `LookupAttributes` as the launcher attribution function — both
filter on the start-type event `StartInstances` — so the two functions
query identically-filtered event sets. -/
theorem stopper_filters_same_event_name_as_launcher
    (ctLookup : List (String × String) → List CTEvent) (iid : String) :
    stopperLookupAttributes iid = launcherLookupAttributes iid ∧
    envLookup (launcherLookupAttributes iid) "EventName" =
      some "StartInstances" ∧
    envLookup (stopperLookupAttributes iid) "EventName" =
      some "StartInstances" ∧
    ctLookup (stopperLookupAttributes iid) =
      ctLookup (launcherLookupAttributes iid) := by
  refine ⟨rfl, ?_, ?_, rfl⟩ <;> rfl

lemma jsonBeq_str (a b : String) :
    (Json.str a == Json.str b) = (a == b) := rfl

/-- A concrete one-tool catalog for concrete evaluations. -/
def sampleTools : List (String × MCPTool) :=
  [("aws-api:call_aws",
    ⟨Json.str "call_aws", Json.str "Execute AWS CLI commands",
     Json.obj [], "aws-api"⟩)]

/-- Parser oracle for a subprocess that first emits a level-`info`
notification line `"n"` and then the real result line `"r"`. -/
def parseInfoThenResult : JParser := fun s =>
  if s == "n" then
    .ok (Json.obj [("jsonrpc", Json.str "2.0"),
                   ("method", Json.str "notifications/message"),
                   ("params", Json.obj [("level", Json.str "info"),
                                        ("data", Json.str "working")])])
  else if s == "r" then
    .ok (Json.obj [("jsonrpc", Json.str "2.0"), ("id", Json.num 42),
                   ("result", Json.str "payload")])
  else .error "Expecting value"

/-- C2 counterexample: the subprocess emits an asynchronous
`notifications/message` line with level `info` before the real response,
which is available on the very next line (and is a well-shaped `result`
response, as the second conjunct certifies).  `_async_call_tool` does NOT
skip the notification and read on: the notification itself becomes the
call's final outcome, an error dict — refuting the claim that a
notification never by itself becomes the call's final outcome. -/
theorem c2_counterexample :
    asyncCallTool parseInfoThenResult sampleTools ["aws-api"]
      "aws-api:call_aws" [ReadLine.line "n", ReadLine.line "r"] =
      errObj "Server notification (info): working" ∧
    standardResponse
      (Json.obj [("jsonrpc", Json.str "2.0"), ("id", Json.num 42),
                 ("result", Json.str "payload")]) =
      .ok (Json.obj [("result", Json.str "payload")]) := ⟨rfl, rfl⟩

/-- Parser oracle: line `"n"` is a notification with empty params (no
`level`), line `"r"` is a result response with payload `v`. -/
def parseNotiThenResult (v : Json) : JParser := fun s =>
  if s == "n" then
    .ok (Json.obj [("method", Json.str "notifications/message"),
                   ("params", Json.obj [])])
  else if s == "r" then .ok (Json.obj [("result", v)])
  else .error "Expecting value"

/-- Parser oracle: line `"n"` is a notification carrying a `level` and
`data`. -/
def parseLeveledNoti (lvl d : String) : JParser := fun s =>
  if s == "n" then
    .ok (Json.obj [("method", Json.str "notifications/message"),
                   ("params", Json.obj [("level", Json.str lvl),
                                        ("data", Json.str d)])])
  else .error "Expecting value"

/-- C2 amended: while waiting for a tool-call response,
`_async_call_tool` skips over a notification only when its params carry
no `level` field, and then reads exactly ONE additional line (under a
shorter 10s secondary timeout) which is taken as the response (first
conjunct); a notification whose params carry a non-`error` level becomes
the call's final outcome as an `{"error": ..}` result, whatever further
lines are available (second conjunct). -/
theorem c2_amended_notification_handling (v : Json) (lvl d : String)
    (rest : List ReadLine) (hlvl : (lvl == "error") = false) :
    asyncCallTool (parseNotiThenResult v) sampleTools ["aws-api"]
      "aws-api:call_aws" [ReadLine.line "n", ReadLine.line "r"] =
      Json.obj [("result", v)] ∧
    asyncCallTool (parseLeveledNoti lvl d) sampleTools ["aws-api"]
      "aws-api:call_aws" (ReadLine.line "n" :: rest) =
      errObj ("Server notification (" ++ lvl ++ "): " ++ d) := by
  constructor
  · rfl
  · have hb : (Json.str lvl == Json.str "error") = false := by
      rw [jsonBeq_str]; exact hlvl
    simp [asyncCallTool, callToolTry, readAt, parseLeveledNoti,
      isMsgNotificationE, notificationPath, pyInE, pyIndexE, pyGetE,
      hasKeyF, lookupF, hb, assocFind, sampleTools, errObj, jsonBeq_str,
      pyStr]

/-- Witness for `c2_amended_notification_handling` at a concrete
instance. -/
theorem c2_amended_notification_handling_witness :
    asyncCallTool (parseNotiThenResult (Json.str "ok")) sampleTools
      ["aws-api"] "aws-api:call_aws"
      [ReadLine.line "n", ReadLine.line "r"] =
      Json.obj [("result", Json.str "ok")] ∧
    asyncCallTool (parseLeveledNoti "info" "x") sampleTools ["aws-api"]
      "aws-api:call_aws" [ReadLine.line "n"] =
      errObj ("Server notification (" ++ "info" ++ "): " ++ "x") :=
  c2_amended_notification_handling (Json.str "ok") "info" "x" [] rfl

/-- Parser oracle: line `"resp"` is a result response carrying an
arbitrary correlation id `respId` and payload `v`. -/
def parseIdResult (respId v : Json) : JParser := fun s =>
  if s == "resp" then
    .ok (Json.obj [("jsonrpc", Json.str "2.0"), ("id", respId),
                   ("result", v)])
  else .error "Expecting value"

/-- C3 counterexample: the request written by `_async_call_tool` carries
id 5 (`int(time.time())` at call time), the response line carries id 999
(a different id, third conjunct), yet the call resolves with
`{"result": ..}` — the mismatched response is returned as a success, not
surfaced as an unmatched-id error. -/
theorem c3_counterexample :
    pyIndexE (toolCallRequest 5 (Json.str "call_aws") (Json.obj [])) "id" =
      .ok (Json.num 5) ∧
    pyIndexE (Json.obj [("jsonrpc", Json.str "2.0"), ("id", Json.num 999),
                        ("result", Json.str "payload")]) "id" =
      .ok (Json.num 999) ∧
    (Json.num 999 == Json.num 5) = false ∧
    asyncCallTool (parseIdResult (Json.num 999) (Json.str "payload"))
      sampleTools ["aws-api"] "aws-api:call_aws" [ReadLine.line "resp"] =
      Json.obj [("result", Json.str "payload")] :=
  ⟨rfl, rfl, rfl, rfl⟩

/-- C3 amended: each request is stamped with a time-derived id
(`int(time.time())`, not guaranteed fresh within a second), but the
response id is never compared against it: ANY response line bearing a
`result` field — whatever its id, including none at all in relation to
the request's — resolves the call as a success, and no unmatched-id error
path exists. -/
theorem c3_amended_id_never_checked (respId v : Json) (now : Int) (args : Json) :
    pyIndexE (toolCallRequest now (Json.str "call_aws") args) "id" =
      .ok (Json.num now) ∧
    asyncCallTool (parseIdResult respId v) sampleTools ["aws-api"]
      "aws-api:call_aws" [ReadLine.line "resp"] =
      Json.obj [("result", v)] :=
  ⟨rfl, rfl⟩

lemma envLookup_update_self (e : List (String × String)) (k v : String) :
    envLookup (envUpdate e k v) k = some v := by
  induction e with
  | nil => simp [envUpdate, envLookup]
  | cons p rest ih =>
    by_cases hp : (p.1 == k) = true
    · simp [envUpdate, hp, envLookup]
    · simp [envUpdate, hp, envLookup, ih]

lemma envLookup_update_other (e : List (String × String)) (k v k' : String)
    (h : k' ≠ k) : envLookup (envUpdate e k v) k' = envLookup e k' := by
  induction e with
  | nil =>
    have hk : (k == k') = false :=
      beq_eq_false_iff_ne.mpr (fun he => h he.symm)
    simp [envUpdate, envLookup, hk]
  | cons p rest ih =>
    by_cases hp : (p.1 == k) = true
    · have hpk : p.1 = k := eq_of_beq hp
      have h1 : (k == k') = false :=
        beq_eq_false_iff_ne.mpr (fun he => h he.symm)
      have h2 : (p.1 == k') = false := by rw [hpk]; exact h1
      simp [envUpdate, hp, envLookup, h1, h2]
    · simp [envUpdate, hp, envLookup, ih]

lemma envAllowFold_cons (parent : List (String × String)) (w : String)
    (ws : List String) (e : List (String × String)) :
    envAllowFold parent (w :: ws) e =
      envAllowFold parent ws
        (match envLookup parent w with
         | some x => envUpdate e w x
         | none => e) := rfl

lemma envAllowFold_preserve (parent : List (String × String))
    (vars : List String) (e : List (String × String)) (v : String)
    (hv : v ∉ vars) :
    envLookup (envAllowFold parent vars e) v = envLookup e v := by
  induction vars generalizing e with
  | nil => rfl
  | cons w ws ih =>
    have hv1 : v ≠ w := fun he => hv (he ▸ List.mem_cons_self w ws)
    have hv2 : v ∉ ws := fun hm => hv (List.mem_cons_of_mem _ hm)
    rw [envAllowFold_cons]
    cases hpw : envLookup parent w with
    | none => simp only [hpw]; exact ih _ hv2
    | some x =>
      simp only [hpw]
      rw [ih _ hv2]
      exact envLookup_update_other _ _ _ _ hv1

lemma envAllowFold_sets (parent : List (String × String))
    (vars : List String) (e : List (String × String)) (v x : String)
    (hmem : v ∈ vars) (hnd : vars.Nodup) (hpar : envLookup parent v = some x) :
    envLookup (envAllowFold parent vars e) v = some x := by
  induction vars generalizing e with
  | nil => cases hmem
  | cons w ws ih =>
    rw [envAllowFold_cons]
    rcases List.mem_cons.mp hmem with rfl | hmem'
    · have hv_not : v ∉ ws := (List.nodup_cons.mp hnd).1
      simp only [hpar]
      rw [envAllowFold_preserve parent ws _ v hv_not]
      exact envLookup_update_self _ _ _
    · have hnd' := (List.nodup_cons.mp hnd).2
      cases hpw : envLookup parent w with
      | none => simp only [hpw]; exact ih _ hmem' hnd'
      | some y => simp only [hpw]; exact ih _ hmem' hnd'

lemma envCredStage_other (cf : Bool) (cred : Option CredDefault)
    (e : List (String × String)) (k : String)
    (h1 : k ≠ "AWS_ACCESS_KEY_ID") (h2 : k ≠ "AWS_SECRET_ACCESS_KEY") :
    envLookup (envCredStage cf cred e) k = envLookup e k := by
  cases cf with
  | false => rfl
  | true =>
    cases cred with
    | none => rfl
    | some c =>
      cases hA : c.accessKey with
      | none =>
        cases hS : c.secretKey with
        | none => simp [envCredStage, hA, hS]
        | some s =>
          simp [envCredStage, hA, hS]
          exact envLookup_update_other _ _ _ _ h2
      | some a =>
        cases hS : c.secretKey with
        | none =>
          simp [envCredStage, hA, hS]
          exact envLookup_update_other _ _ _ _ h1
        | some s =>
          simp [envCredStage, hA, hS]
          rw [envLookup_update_other _ _ _ _ h2]
          exact envLookup_update_other _ _ _ _ h1

lemma envOverlayStage_config_file (parent server : List (String × String))
    (awsHome : String) (cf : Bool) (cred : Option CredDefault) :
    envLookup (envOverlayStage parent server awsHome true cf cred)
      "AWS_CONFIG_FILE" = some (awsHome ++ "/config") := by
  unfold envOverlayStage
  simp only [if_true]
  rw [envCredStage_other _ _ _ _ (by decide) (by decide)]
  rw [envLookup_update_other _ _ _ _ (by decide)]
  exact envLookup_update_self _ _ _

/-- C9 counterexample: with a parent environment carrying
`AWS_REGION=eu-west-1` and a server override `AWS_REGION=us-west-2`, the
environment handed to the subprocess carries the PARENT's value — the
explicit override is clobbered by the allow-list re-copy from
`os.environ` (lines 165-167) — so the spawned environment does not equal
"inherited parent environment plus the server-specific overrides". -/
theorem c9_counterexample :
    computeServerEnv [("AWS_REGION", "eu-west-1")]
      [("AWS_REGION", "us-west-2")] "/h/.aws" false false none =
      [("AWS_REGION", "eu-west-1")] ∧
    envLookup (computeServerEnv [("AWS_REGION", "eu-west-1")]
      [("AWS_REGION", "us-west-2")] "/h/.aws" false false none)
      "AWS_REGION" ≠ some "us-west-2" := by
  refine ⟨rfl, ?_⟩
  intro h
  have : (some "eu-west-1" : Option String) = some "us-west-2" := h
  simp at this

/-- C9 amended: the spawned environment is the parent environment
overlaid with the server overrides and the credential-file additions,
EXCEPT that every allow-listed AWS variable present in the parent
environment is finally re-copied from the parent — replacing any server
override or credential-file value (first conjunct); when `~/.aws` exists
the credential file path variable is exposed (second conjunct); and a
region variable is always present in the final environment, with
`AWS_DEFAULT_REGION=ca-central-1` supplied when none is set (third
conjunct). -/
theorem c9_amended_env_construction
    (parent server : List (String × String)) (awsHome : String)
    (hx cf : Bool) (cred : Option CredDefault) (v x : String)
    (hv : v ∈ awsEnvVars) (hpar : envLookup parent v = some x) :
    envLookup (computeServerEnv parent server awsHome hx cf cred) v =
      some x ∧
    (hx = true →
      envLookup (computeServerEnv parent server awsHome hx cf cred)
        "AWS_CONFIG_FILE" = some (awsHome ++ "/config")) ∧
    ((envLookup (computeServerEnv parent server awsHome hx cf cred)
        "AWS_REGION").isSome = true ∨
     (envLookup (computeServerEnv parent server awsHome hx cf cred)
        "AWS_DEFAULT_REGION").isSome = true) := by
  have hnd : awsEnvVars.Nodup := by decide
  set e2 := envAllowStage parent
    (envOverlayStage parent server awsHome hx cf cred) with he2
  have h2 : envLookup e2 v = some x := by
    rw [he2]
    exact envAllowFold_sets parent awsEnvVars _ v x hv hnd hpar
  have hcomp : computeServerEnv parent server awsHome hx cf cred =
      envRegionStage e2 := rfl
  refine ⟨?_, ?_, ?_⟩
  · rw [hcomp]
    unfold envRegionStage
    by_cases hreg : ((envLookup e2 "AWS_REGION").isNone &&
        (envLookup e2 "AWS_DEFAULT_REGION").isNone) = true
    · rw [if_pos hreg]
      have hvne : v ≠ "AWS_DEFAULT_REGION" := by
        intro hveq
        rw [hveq] at h2
        simp [h2] at hreg
      rw [envLookup_update_other _ _ _ _ hvne]
      exact h2
    · rw [if_neg hreg]
      exact h2
  · intro hxt
    subst hxt
    have hallow : envLookup e2 "AWS_CONFIG_FILE" =
        some (awsHome ++ "/config") := by
      rw [he2]
      unfold envAllowStage
      rw [envAllowFold_preserve parent awsEnvVars _ _ (by decide)]
      exact envOverlayStage_config_file parent server awsHome cf cred
    rw [hcomp]
    unfold envRegionStage
    by_cases hreg : ((envLookup e2 "AWS_REGION").isNone &&
        (envLookup e2 "AWS_DEFAULT_REGION").isNone) = true
    · rw [if_pos hreg,
        envLookup_update_other _ _ _ _
          (by decide : "AWS_CONFIG_FILE" ≠ "AWS_DEFAULT_REGION")]
      exact hallow
    · rw [if_neg hreg]
      exact hallow
  · rw [hcomp]
    unfold envRegionStage
    by_cases hreg : ((envLookup e2 "AWS_REGION").isNone &&
        (envLookup e2 "AWS_DEFAULT_REGION").isNone) = true
    · rw [if_pos hreg]
      right
      rw [envLookup_update_self]
      rfl
    · rw [if_neg hreg]
      by_cases hA : (envLookup e2 "AWS_REGION").isNone = true
      · right
        cases hB : envLookup e2 "AWS_DEFAULT_REGION" with
        | none =>
          exfalso
          apply hreg
          rw [hA, hB]
          rfl
        | some y => rfl
      · left
        cases hE : envLookup e2 "AWS_REGION" with
        | none => rw [hE] at hA; simp at hA
        | some y => rfl

/-- Witness for `c9_amended_env_construction` at a concrete instance. -/
theorem c9_amended_env_construction_witness :
    envLookup (computeServerEnv [("AWS_REGION", "eu-west-1")]
      [("AWS_REGION", "us-west-2")] "/h/.aws" true false none)
      "AWS_REGION" = some "eu-west-1" ∧
    (true = true →
      envLookup (computeServerEnv [("AWS_REGION", "eu-west-1")]
        [("AWS_REGION", "us-west-2")] "/h/.aws" true false none)
        "AWS_CONFIG_FILE" = some ("/h/.aws" ++ "/config")) ∧
    ((envLookup (computeServerEnv [("AWS_REGION", "eu-west-1")]
        [("AWS_REGION", "us-west-2")] "/h/.aws" true false none)
        "AWS_REGION").isSome = true ∨
     (envLookup (computeServerEnv [("AWS_REGION", "eu-west-1")]
        [("AWS_REGION", "us-west-2")] "/h/.aws" true false none)
        "AWS_DEFAULT_REGION").isSome = true) :=
  c9_amended_env_construction [("AWS_REGION", "eu-west-1")]
    [("AWS_REGION", "us-west-2")] "/h/.aws" true false none
    "AWS_REGION" "eu-west-1" (by decide) rfl

lemma handshakeResult_fails (parse : JParser) (l : ReadLine)
    (hfail : l = ReadLine.timeout ∨ l = ReadLine.eof ∨
      ∃ ls resp, l = ReadLine.line ls ∧ parse ls = .ok resp ∧
        pyInE "error" resp = .ok true) :
    ∃ m, handshakeResult parse l = .error m := by
  rcases hfail with h | h | ⟨ls, resp, hl, hp, hin⟩
  · exact ⟨"asyncio.TimeoutError", by subst h; rfl⟩
  · exact ⟨"No response from server", by subst h; rfl⟩
  · subst hl
    cases h3 : pyIndexE resp "error" with
    | error e =>
      refine ⟨strOfExn e, ?_⟩
      simp [handshakeResult, hp, hin, h3]
    | ok v =>
      refine ⟨"Server initialization error: " ++ pyStr v, ?_⟩
      simp [handshakeResult, hp, hin, h3]

lemma initStep_of_handshake_failure (parse : JParser) (st : CatalogState)
    (s : ServerSpec)
    (hfail : ∃ m, handshakeResult parse s.run.handshakeLine = .error m) :
    initStep parse st s = st := by
  obtain ⟨m, hm⟩ := hfail
  by_cases hl : (!s.run.launchOk) = true
  · simp [initStep, initServerE, hl]
  · simp [initStep, initServerE, hl, hm]

/-- C8: for every server whose handshake step fails (no response line
within the timeout — including an EOF read — or a response carrying an
`error` field), initialization of the whole fleet behaves EXACTLY as if
that server were absent from the configuration: it contributes zero
entries to the tool catalog and to the server registry, and every other
server's initialization is unaffected (the per-server failure is caught
and the loop continues). -/
theorem handshake_failure_isolates_server (parse : JParser)
    (pre post : List ServerSpec) (s : ServerSpec)
    (hcmd : s.command = "uvx")
    (hfail : s.run.handshakeLine = ReadLine.timeout ∨
      s.run.handshakeLine = ReadLine.eof ∨
      ∃ ls resp, s.run.handshakeLine = ReadLine.line ls ∧
        parse ls = .ok resp ∧ pyInE "error" resp = .ok true) :
    initAll parse (pre ++ s :: post) = initAll parse (pre ++ post) := by
  have hs : (s.command == "uvx") = true := by rw [hcmd]; rfl
  unfold initAll
  rw [List.filter_append, List.filter_append, List.filter_cons]
  simp only [hs, if_true]
  rw [List.foldl_append, List.foldl_append, List.foldl_cons]
  rw [initStep_of_handshake_failure parse _ s
    (handshakeResult_fails parse _ hfail)]

/-- Handshake line answered correctly: a response with no `error` key. -/
def sampleInitParse : JParser := fun s =>
  if s == "h" then
    .ok (Json.obj [("jsonrpc", Json.str "2.0"), ("id", Json.num 1),
                   ("result", Json.obj [])])
  else .error "Expecting value"

/-- A healthy server spec for concrete evaluations. -/
def specA : ServerSpec :=
  ⟨"srv-a", "uvx", ⟨true, ReadLine.line "h", ReadLine.timeout⟩⟩

/-- A second healthy server spec. -/
def specB : ServerSpec :=
  ⟨"srv-b", "uvx", ⟨true, ReadLine.line "h", ReadLine.timeout⟩⟩

/-- A server whose handshake read times out. -/
def badSpec : ServerSpec :=
  ⟨"srv-bad", "uvx", ⟨true, ReadLine.timeout, ReadLine.timeout⟩⟩

/-- Witness for `handshake_failure_isolates_server` at a concrete fleet:
with the timing-out server in the middle, initialization yields the same
registry as without it. -/
theorem handshake_failure_isolates_server_witness :
    initAll sampleInitParse [specA, badSpec, specB] =
      initAll sampleInitParse [specA, specB] :=
  handshake_failure_isolates_server sampleInitParse [specA] [specB] badSpec
    rfl (Or.inl rfl)

/-- "All keys are in the schema's property set": the schema's
`properties` value is a dict (or absent) and every argument key occurs
among its keys. -/
def propsOkAndCover (sfs fields : List (String × Json)) : Bool :=
  match lookupF sfs "properties" with
  | some (Json.obj ps) => fields.all (fun p => (ps.map Prod.fst).contains p.1)
  | none => true
  | some _ => false

/-- The schema's `required` value (when present) is iterable with
hashable elements, so the missing-required check can only log. -/
def requiredOk (sfs : List (String × Json)) : Bool :=
  match lookupF sfs "required" with
  | none => true
  | some (Json.arr rs) =>
      rs.all (fun r =>
        match r with
        | Json.arr _ => false
        | Json.obj _ => false
        | _ => true)
  | some (Json.obj _) => true
  | some (Json.str _) => true
  | some _ => false

/-- "All aliases canonical": no legacy alias key of this tool occurs
among the argument keys. -/
def aliasFree (toolName : Json) (fields : List (String × Json)) : Bool :=
  (aliasTable toolName).all (fun p => !(hasKeyF fields p.1))

lemma renameKey_id (fields : List (String × Json)) (src tgt : String)
    (h : hasKeyF fields src = false) : renameKey fields src tgt = fields := by
  simp [renameKey, h]

lemma aliasFix_id (toolName : Json) (fields : List (String × Json))
    (halias : aliasFree toolName fields = true) :
    aliasFix toolName fields = fields := by
  unfold aliasFree at halias
  unfold aliasFix
  generalize aliasTable toolName = tbl at halias ⊢
  induction tbl with
  | nil => rfl
  | cons p ps ih =>
    rw [List.all_cons] at halias
    obtain ⟨h1, h2⟩ := (Bool.and_eq_true _ _).mp halias
    rw [List.foldl_cons,
      renameKey_id fields p.1 p.2 (by simpa using h1)]
    exact ih h2

lemma lookupF_of_hasKeyF (fs : List (String × Json)) (k : String)
    (h : hasKeyF fs k = true) : ∃ v, lookupF fs k = some v := by
  induction fs with
  | nil => simp [hasKeyF] at h
  | cons p rest ih =>
    cases hp : (p.1 == k) with
    | true => exact ⟨p.2, by simp [lookupF, hp]⟩
    | false =>
      have h' : hasKeyF rest k = true := by
        simpa [hasKeyF, List.any_cons, hp] using h
      obtain ⟨v, hv⟩ := ih h'
      exact ⟨v, by simp [lookupF, hp, hv]⟩

lemma mem_props_of_contains (ps : List (String × Json)) (a : String)
    (h : ((ps.map Prod.fst).contains a) = true) : ∃ x, (a, x) ∈ ps := by
  have hmem : a ∈ ps.map Prod.fst := List.elem_iff.mp h
  obtain ⟨p, hp, hpa⟩ := List.mem_map.mp hmem
  exact ⟨p.2, by rw [← hpa]; simpa using hp⟩

lemma checkRequired_ok_of_hashable (fields : List (String × Json))
    (elems : List Json)
    (h : ∀ r ∈ elems,
      (match r with
       | Json.arr _ => false
       | Json.obj _ => false
       | _ => true) = true) :
    checkRequired fields elems = .ok () := by
  induction elems with
  | nil => rfl
  | cons r rest ih =>
    have hr := h r (List.mem_cons_self r rest)
    have hrest : ∀ x ∈ rest,
        (match x with
         | Json.arr _ => false
         | Json.obj _ => false
         | _ => true) = true :=
      fun x hx => h x (List.mem_cons_of_mem _ hx)
    cases r with
    | arr xs => simp at hr
    | obj fs => simp at hr
    | null => simp [checkRequired, pyDictContains]; exact ih hrest
    | bool b => simp [checkRequired, pyDictContains]; exact ih hrest
    | num n => simp [checkRequired, pyDictContains]; exact ih hrest
    | str s => simp [checkRequired, pyDictContains]; exact ih hrest

lemma schemaFilter_id (sfs fields : List (String × Json))
    (hprops : propsOkAndCover sfs fields = true)
    (hreq : requiredOk sfs = true) :
    schemaFilter (Json.obj sfs) fields = .ok fields := by
  unfold schemaFilter
  by_cases hz : sfs.isEmpty = true
  · simp [pyTruthy, hz]
  · by_cases hhp : hasKeyF sfs "properties" = true
    · obtain ⟨pv, hpv⟩ := lookupF_of_hasKeyF sfs "properties" hhp
      unfold propsOkAndCover at hprops
      rw [hpv] at hprops
      cases pv with
      | obj ps =>
        have hall : fields.all
            (fun p => (ps.map Prod.fst).contains p.1) = true := hprops
        have hcover : ∀ p ∈ fields,
            ((ps.map Prod.fst).contains p.1) = true :=
          fun p hp => List.all_eq_true.mp hall p hp
        cases hrv : lookupF sfs "required" with
        | none =>
          simp [pyTruthy, hz, pyInE, hhp, pyGetE, hrv, pyIndexE, hpv,
            jsonKeys, iterElems, checkRequired]
          intro a b hab
          exact mem_props_of_contains ps a (hcover (a, b) hab)
        | some rq =>
          unfold requiredOk at hreq
          rw [hrv] at hreq
          cases rq with
          | arr rs =>
            have hreqall : rs.all (fun r =>
                match r with
                | Json.arr _ => false
                | Json.obj _ => false
                | _ => true) = true := hreq
            have hok : checkRequired fields rs = .ok () :=
              checkRequired_ok_of_hashable fields rs
                (fun r hr => List.all_eq_true.mp hreqall r hr)
            simp [pyTruthy, hz, pyInE, hhp, pyGetE, hrv, pyIndexE, hpv,
              jsonKeys, iterElems, hok]
            intro a b hab
            exact mem_props_of_contains ps a (hcover (a, b) hab)
          | obj fs2 =>
            have hok : checkRequired fields
                (fs2.map (fun p => Json.str p.1)) = .ok () := by
              apply checkRequired_ok_of_hashable
              intro r hr
              obtain ⟨p, _, hp⟩ := List.mem_map.mp hr
              rw [← hp]
            simp [pyTruthy, hz, pyInE, hhp, pyGetE, hrv, pyIndexE, hpv,
              jsonKeys, iterElems, hok]
            intro a b hab
            exact mem_props_of_contains ps a (hcover (a, b) hab)
          | str s =>
            have hok : checkRequired fields
                (s.data.map (fun c => Json.str (String.mk [c]))) = .ok () := by
              apply checkRequired_ok_of_hashable
              intro r hr
              obtain ⟨c, _, hc⟩ := List.mem_map.mp hr
              rw [← hc]
            simp [pyTruthy, hz, pyInE, hhp, pyGetE, hrv, pyIndexE, hpv,
              jsonKeys, iterElems, hok]
            intro a b hab
            exact mem_props_of_contains ps a (hcover (a, b) hab)
          | null => simp at hreq
          | bool b => simp at hreq
          | num n => simp at hreq
      | null => simp at hprops
      | bool b => simp at hprops
      | num n => simp at hprops
      | str s => simp at hprops
      | arr xs => simp at hprops
    · simp [pyTruthy, hz, pyInE, hhp]

/-- C7: argument repair is idempotent.  For every tool in the catalog
with a well-formed schema, repairing already-correct arguments — all
legacy aliases canonical (`aliasFree`), every key in the schema's
property set (`propsOkAndCover`) — returns them unchanged, and in
particular missing required parameters never make the repair fail. -/
theorem validate_and_fix_idempotent
    (tools : List (String × MCPTool)) (tname : String) (tool : MCPTool)
    (sfs fields : List (String × Json))
    (htool : assocFind tools tname = some tool)
    (hschema : tool.input_schema = Json.obj sfs)
    (hprops : propsOkAndCover sfs fields = true)
    (hreq : requiredOk sfs = true)
    (halias : aliasFree (Json.str tname) fields = true) :
    validateAndFix tools (Json.str tname) (Json.obj fields) =
      .ok (Json.obj fields) := by
  simp only [validateAndFix, htool]
  rw [aliasFix_id _ _ halias, hschema,
    schemaFilter_id sfs fields hprops hreq]

/-- The `call_aws` tool with its real schema shape, for the idempotence
witness. -/
def callAwsTool : MCPTool :=
  ⟨Json.str "call_aws", Json.str "Execute AWS CLI commands",
   Json.obj [("properties",
               Json.obj [("cli_command", Json.obj [("type", Json.str "string")])]),
             ("required", Json.arr [Json.str "cli_command"])],
   "aws-api"⟩

/-- Witness for `validate_and_fix_idempotent`: already-correct
`call_aws` arguments come back unchanged. -/
theorem validate_and_fix_idempotent_witness :
    validateAndFix [("aws-api:call_aws", callAwsTool)]
      (Json.str "aws-api:call_aws")
      (Json.obj [("cli_command", Json.str "aws s3 ls")]) =
      .ok (Json.obj [("cli_command", Json.str "aws s3 ls")]) :=
  validate_and_fix_idempotent [("aws-api:call_aws", callAwsTool)]
    "aws-api:call_aws" callAwsTool
    [("properties",
       Json.obj [("cli_command", Json.obj [("type", Json.str "string")])]),
     ("required", Json.arr [Json.str "cli_command"])]
    [("cli_command", Json.str "aws s3 ls")]
    rfl rfl rfl rfl rfl

/-- A model reply containing TWO JSON objects: the regex span runs from
the first opening brace to the LAST closing brace, swallowing both. -/
def c6resp : String :=
  "\x7b\"needs_tools\": true, \"tool_calls\": []\x7d and \x7b\"x\": 1\x7d"

/-- The first balanced JSON object inside `c6resp`. -/
def c6firstObj : String :=
  "\x7b\"needs_tools\": true, \"tool_calls\": []\x7d"

/-- What `json.loads` makes of `c6firstObj`. -/
def c6goodIntent : Json :=
  Json.obj [("needs_tools", Json.bool true), ("tool_calls", Json.arr [])]

/-- `json.loads` on the strings at play: the first balanced object parses
fine; the greedy span (and anything else) has trailing garbage. -/
def c6parse : JParser := fun s =>
  if s == c6firstObj then .ok c6goodIntent else .error "Extra data"

/-- C6 counterexample: `_analyze_intent` does NOT extract the first
balanced JSON object.  On a reply holding a valid intent object followed
by more text and a second object, the `re.search(r'\x7b.*\x7d', ..)` span is
the whole first-brace-to-last-brace stretch (first conjunct), which is
not the first balanced object (second conjunct) and fails to parse — so
the intent degrades to `needs_tools: false` (fifth conjunct) even though
the first balanced JSON object parses to `needs_tools: true` (third and
fourth conjuncts). -/
theorem c6_counterexample :
    extractJson c6resp = some c6resp ∧
    some c6resp ≠ some c6firstObj ∧
    c6parse c6firstObj = .ok c6goodIntent ∧
    pyGetE c6goodIntent "needs_tools" (Json.bool false) =
      .ok (Json.bool true) ∧
    analyzeIntent c6parse (.ok c6resp) =
      Json.obj [("needs_tools", Json.bool false),
                ("reasoning", Json.str "JSON parse error: Extra data")] :=
  ⟨by decide, by decide, rfl, rfl, rfl⟩

/-- C6 amended: `_analyze_intent` extracts the greedy span from the first
opening brace to the last closing brace of the reply (not the first
balanced object); when no such span exists, or parsing the span fails,
the intent degrades to `needs_tools: false` with a recorded reasoning
(recoverable), so `process_message` executes zero tool calls and still
returns the reply produced by the reply-generation step over an empty
tool-outcome list. -/
theorem c6_amended_parse_failure_recoverable
    (parse : JParser) (tools : List (String × MCPTool))
    (ct : Json → Json → Json)
    (genReply : String → Json → List ToolRecord → String)
    (resp um : String)
    (hfail : extractJson resp = none ∨
      ∃ js m, extractJson resp = some js ∧ parse js = .error m) :
    (∃ reason, analyzeIntent parse (.ok resp) =
      Json.obj [("needs_tools", Json.bool false),
                ("reasoning", Json.str reason)]) ∧
    processMessageBody parse tools ct genReply (.ok resp) um =
      .ok (genReply um (analyzeIntent parse (.ok resp)) [], [], []) ∧
    process_message parse tools ct genReply (.ok resp) um =
      genReply um (analyzeIntent parse (.ok resp)) [] := by
  have hintent : ∃ reason, analyzeIntent parse (.ok resp) =
      Json.obj [("needs_tools", Json.bool false),
                ("reasoning", Json.str reason)] := by
    rcases hfail with h | ⟨js, m, hjs, hm⟩
    · exact ⟨"Could not parse intent", by simp [analyzeIntent, h]⟩
    · exact ⟨"JSON parse error: " ++ m, by simp [analyzeIntent, hjs, hm]⟩
  obtain ⟨reason, hr⟩ := hintent
  refine ⟨⟨reason, hr⟩, ?_, ?_⟩
  · simp [processMessageBody, hr, pyGetE, lookupF, pyTruthy]
  · simp [process_message, processMessageBody, hr, pyGetE, lookupF, pyTruthy]

/-- Witness for `c6_amended_parse_failure_recoverable` at the concrete
two-object reply. -/
theorem c6_amended_parse_failure_recoverable_witness :
    (∃ reason, analyzeIntent c6parse (.ok c6resp) =
      Json.obj [("needs_tools", Json.bool false),
                ("reasoning", Json.str reason)]) ∧
    processMessageBody c6parse sampleTools (fun _ _ => Json.obj [])
      (fun _ _ _ => "Voici la reponse") (.ok c6resp) "list my buckets" =
      .ok ((fun (_ : String) (_ : Json) (_ : List ToolRecord) =>
              "Voici la reponse") "list my buckets"
             (analyzeIntent c6parse (.ok c6resp)) [], [], []) ∧
    process_message c6parse sampleTools (fun _ _ => Json.obj [])
      (fun _ _ _ => "Voici la reponse") (.ok c6resp) "list my buckets" =
      (fun (_ : String) (_ : Json) (_ : List ToolRecord) =>
          "Voici la reponse") "list my buckets"
        (analyzeIntent c6parse (.ok c6resp)) [] :=
  c6_amended_parse_failure_recoverable c6parse sampleTools
    (fun _ _ => Json.obj []) (fun _ _ _ => "Voici la reponse")
    c6resp "list my buckets"
    (Or.inr ⟨c6resp, "Extra data", by decide, rfl⟩)

/-- The docs-search tool, for the fallback counterexample. -/
def searchDocTool : MCPTool :=
  ⟨Json.str "search_documentation", Json.str "Search AWS documentation",
   Json.obj [], "aws-docs"⟩

/-- The suggestion tool, present in the catalog. -/
def suggestTool : MCPTool :=
  ⟨Json.str "suggest_aws_commands", Json.str "Suggest AWS CLI commands",
   Json.obj [], "aws-api"⟩

/-- A catalog holding both the docs-search tool and the suggestion
tool. -/
def c5tools : List (String × MCPTool) :=
  [("aws-docs:search_documentation", searchDocTool),
   ("aws-api:suggest_aws_commands", suggestTool)]

/-- A `call_tool` oracle on which the docs-search tool fails with a
validation-shaped message while the suggestion tool would succeed. -/
def c5ct : Json → Json → Json := fun name _ =>
  if name == Json.str "aws-docs:search_documentation" then
    errObj "validation error: missing parameter"
  else Json.obj [("result", Json.str "suggested commands")]

/-- C5 counterexample: a requested call to `aws-docs:search_documentation`
errors with a validation-shaped message, and the suggestion tool IS in
the catalog (and would succeed, as its oracle shows) — yet NO fallback
invocation is attempted: the trace of issued calls holds exactly the one
original call, and the recorded outcome is the raw error.  The fallback
only ever fires for `aws-api:call_aws` with a `cli_command` argument,
refuting the claim's "for every requested tool call". -/
theorem c5_counterexample :
    execOneToolCall c5tools c5ct "find lambda docs"
      (Json.obj [("name", Json.str "aws-docs:search_documentation"),
                 ("arguments", Json.obj [])]) =
      .ok ({tool := Json.str "aws-docs:search_documentation",
            result := errObj "validation error: missing parameter",
            fallback_reason := none},
           [(Json.str "aws-docs:search_documentation", Json.obj [])]) ∧
    c5ct (Json.str "aws-api:suggest_aws_commands")
      (Json.obj [("query", Json.str "find lambda docs")]) =
      Json.obj [("result", Json.str "suggested commands")] := ⟨rfl, rfl⟩

/-- C5 amended: only when the failing call names `aws-api:call_aws` and
its repaired arguments contain `cli_command` does `process_message`
attempt exactly one fallback invocation of `aws-api:suggest_aws_commands`
with the original user message as its `query`; when that fallback
succeeds, the recorded outcome is the suggestion tool's result tagged
with a fallback reason instead of the raw error, and the issued-call
trace is exactly the original call followed by the one suggestion call
(first conjunct).  Each requested call is processed independently and a
failing call never aborts the remaining calls (second conjunct). -/
theorem c5_amended_call_aws_fallback
    (tools : List (String × MCPTool)) (ct : Json → Json → Json)
    (um : String) (args fixed sugg : Json) (m : String)
    (hv : validateAndFix tools (Json.str "aws-api:call_aws") args = .ok fixed)
    (hcli : pyInE "cli_command" fixed = .ok true)
    (herr : ct (Json.str "aws-api:call_aws") fixed = errObj m)
    (hval : (containsSub (strLower m) "validation" ||
             containsSub (strLower m) "parameters") = true)
    (hsugg : ct (Json.str "aws-api:suggest_aws_commands")
      (Json.obj [("query", Json.str um)]) = sugg)
    (hsres : pyInE "result" sugg = .ok true) :
    execOneToolCall tools ct um
      (Json.obj [("name", Json.str "aws-api:call_aws"),
                 ("arguments", args)]) =
      .ok ({tool := Json.str "aws-api:suggest_aws_commands",
            result := sugg,
            fallback_reason :=
              some ("Original command failed validation: " ++ m)},
           [(Json.str "aws-api:call_aws", fixed),
            (Json.str "aws-api:suggest_aws_commands",
             Json.obj [("query", Json.str um)])]) ∧
    (∀ e1 e2 r1 r2,
      execOneToolCall tools ct um e1 = .ok r1 →
      execOneToolCall tools ct um e2 = .ok r2 →
      execTools tools ct um [e1, e2] = .ok ([r1.1, r2.1], r1.2 ++ r2.2)) := by
  constructor
  · have hn : pyIndexE (Json.obj [("name", Json.str "aws-api:call_aws"),
        ("arguments", args)]) "name" = .ok (Json.str "aws-api:call_aws") := rfl
    have hga : pyGetE (Json.obj [("name", Json.str "aws-api:call_aws"),
        ("arguments", args)]) "arguments" (Json.obj []) = .ok args := rfl
    have herrkey : pyInE "error" (errObj m) = Except.ok true := rfl
    have hidx : pyIndexE (errObj m) "error" = Except.ok (Json.str m) := rfl
    have hname : (Json.str "aws-api:call_aws" ==
        Json.str "aws-api:call_aws") = true := rfl
    simp only [execOneToolCall, hn, hga, execOneInner, hv, herr, herrkey,
      hidx, hname, hcli, hsugg, hsres, hval, if_true]
    rfl
  · intro e1 e2 r1 r2 h1 h2
    simp [execTools, h1, h2]

/-- Witness for `c5_amended_call_aws_fallback` at a concrete failing
`call_aws` invocation. -/
theorem c5_amended_call_aws_fallback_witness :
    execOneToolCall sampleTools
      (fun name _ =>
        if name == Json.str "aws-api:call_aws" then
          errObj "validation error"
        else Json.obj [("result", Json.str "suggested commands")])
      "list my buckets"
      (Json.obj [("name", Json.str "aws-api:call_aws"),
                 ("arguments",
                  Json.obj [("cli_command", Json.str "aws s3 ls")])]) =
      .ok ({tool := Json.str "aws-api:suggest_aws_commands",
            result := Json.obj [("result", Json.str "suggested commands")],
            fallback_reason :=
              some ("Original command failed validation: " ++
                "validation error")},
           [(Json.str "aws-api:call_aws",
             Json.obj [("cli_command", Json.str "aws s3 ls")]),
            (Json.str "aws-api:suggest_aws_commands",
             Json.obj [("query", Json.str "list my buckets")])]) ∧
    (∀ e1 e2 r1 r2,
      execOneToolCall sampleTools
        (fun name _ =>
          if name == Json.str "aws-api:call_aws" then
            errObj "validation error"
          else Json.obj [("result", Json.str "suggested commands")])
        "list my buckets" e1 = .ok r1 →
      execOneToolCall sampleTools
        (fun name _ =>
          if name == Json.str "aws-api:call_aws" then
            errObj "validation error"
          else Json.obj [("result", Json.str "suggested commands")])
        "list my buckets" e2 = .ok r2 →
      execTools sampleTools
        (fun name _ =>
          if name == Json.str "aws-api:call_aws" then
            errObj "validation error"
          else Json.obj [("result", Json.str "suggested commands")])
        "list my buckets" [e1, e2] = .ok ([r1.1, r2.1], r1.2 ++ r2.2)) :=
  c5_amended_call_aws_fallback sampleTools
    (fun name _ =>
      if name == Json.str "aws-api:call_aws" then
        errObj "validation error"
      else Json.obj [("result", Json.str "suggested commands")])
    "list my buckets"
    (Json.obj [("cli_command", Json.str "aws s3 ls")])
    (Json.obj [("cli_command", Json.str "aws s3 ls")])
    (Json.obj [("result", Json.str "suggested commands")])
    "validation error" rfl rfl rfl rfl rfl rfl

/-- C4: whenever the intent-analysis / tool-execution / reply-generation
sequence raises (the body evaluates to an exception), `process_message`
catches it and returns `fallbackMessage` of the exception text — never
the raw exception (first conjunct); the fallback is always one of the
four categorized French messages or the generic one (second conjunct);
and the category is selected by substring-matching the exception text in
a fixed cascade: missing credentials, then request validation, then rate
limiting, then scheduler conflicts, with the generic message as last
resort (remaining conjuncts). -/
theorem process_message_catches_and_categorizes
    (parse : JParser) (tools : List (String × MCPTool))
    (ct : Json → Json → Json)
    (genReply : String → Json → List ToolRecord → String)
    (intentBedrock : Except String String) (um : String) (e : PyExn)
    (hbody : processMessageBody parse tools ct genReply intentBedrock um =
      .error e) :
    process_message parse tools ct genReply intentBedrock um =
      fallbackMessage (strOfExn e) ∧
    (fallbackMessage (strOfExn e) = credentialsFallback ∨
     fallbackMessage (strOfExn e) = validationFallback ∨
     fallbackMessage (strOfExn e) = throttlingFallback ∨
     fallbackMessage (strOfExn e) = eventLoopFallback ∨
     fallbackMessage (strOfExn e) = genericFallback (strOfExn e)) ∧
    (containsSub (strOfExn e) "Unable to locate credentials" = true →
      fallbackMessage (strOfExn e) = credentialsFallback) ∧
    (containsSub (strOfExn e) "Unable to locate credentials" = false →
      containsSub (strOfExn e) "ValidationException" = true →
      fallbackMessage (strOfExn e) = validationFallback) ∧
    (containsSub (strOfExn e) "Unable to locate credentials" = false →
      containsSub (strOfExn e) "ValidationException" = false →
      containsSub (strOfExn e) "ThrottlingException" = true →
      fallbackMessage (strOfExn e) = throttlingFallback) ∧
    (containsSub (strOfExn e) "Unable to locate credentials" = false →
      containsSub (strOfExn e) "ValidationException" = false →
      containsSub (strOfExn e) "ThrottlingException" = false →
      (containsSub (strLower (strOfExn e)) "event loop" ||
       containsSub (strLower (strOfExn e)) "asyncio") = true →
      fallbackMessage (strOfExn e) = eventLoopFallback) ∧
    (containsSub (strOfExn e) "Unable to locate credentials" = false →
      containsSub (strOfExn e) "ValidationException" = false →
      containsSub (strOfExn e) "ThrottlingException" = false →
      (containsSub (strLower (strOfExn e)) "event loop" ||
       containsSub (strLower (strOfExn e)) "asyncio") = false →
      fallbackMessage (strOfExn e) = genericFallback (strOfExn e)) := by
  refine ⟨?_, ?_, ?_, ?_, ?_, ?_, ?_⟩
  · unfold process_message
    rw [hbody]
  · unfold fallbackMessage
    repeat' split
    · exact Or.inl rfl
    · exact Or.inr (Or.inl rfl)
    · exact Or.inr (Or.inr (Or.inl rfl))
    · exact Or.inr (Or.inr (Or.inr (Or.inl rfl)))
    · exact Or.inr (Or.inr (Or.inr (Or.inr rfl)))
  · intro h1
    unfold fallbackMessage
    rw [if_pos h1]
  · intro h1 h2
    unfold fallbackMessage
    rw [if_neg (by simp [h1]), if_pos h2]
  · intro h1 h2 h3
    unfold fallbackMessage
    rw [if_neg (by simp [h1]), if_neg (by simp [h2]), if_pos h3]
  · intro h1 h2 h3 h4
    unfold fallbackMessage
    rw [if_neg (by simp [h1]), if_neg (by simp [h2]),
      if_neg (by simp [h3]), if_pos h4]
  · intro h1 h2 h3 h4
    unfold fallbackMessage
    rw [if_neg (by simp [h1]), if_neg (by simp [h2]),
      if_neg (by simp [h3]), if_neg (by simp [h4])]

/-- A model reply requesting one tool call whose entry lacks a `name`:
`tool_call["name"]` at line 89 raises `KeyError` outside the inner
`try`. -/
def c4resp : String :=
  "\x7b\"needs_tools\": true, \"tool_calls\": [\x7b\x7d]\x7d"

/-- `json.loads` on `c4resp`. -/
def c4parse : JParser := fun s =>
  if s == c4resp then
    .ok (Json.obj [("needs_tools", Json.bool true),
                   ("tool_calls", Json.arr [Json.obj []])])
  else .error "Expecting value"

/-- The `KeyError: 'name'` that run raises. -/
def c4exn : PyExn :=
  PyExn.otherExn ("KeyError: " ++ apos ++ "name" ++ apos)

/-- Witness for `process_message_catches_and_categorizes` on a concrete
run whose tool-call entry lacks a `name`. -/
theorem process_message_catches_and_categorizes_witness :
    process_message c4parse sampleTools (fun _ _ => Json.obj [])
      (fun _ _ _ => "ok") (.ok c4resp) "hello" =
      fallbackMessage (strOfExn c4exn) ∧
    (fallbackMessage (strOfExn c4exn) = credentialsFallback ∨
     fallbackMessage (strOfExn c4exn) = validationFallback ∨
     fallbackMessage (strOfExn c4exn) = throttlingFallback ∨
     fallbackMessage (strOfExn c4exn) = eventLoopFallback ∨
     fallbackMessage (strOfExn c4exn) = genericFallback (strOfExn c4exn)) ∧
    (containsSub (strOfExn c4exn) "Unable to locate credentials" = true →
      fallbackMessage (strOfExn c4exn) = credentialsFallback) ∧
    (containsSub (strOfExn c4exn) "Unable to locate credentials" = false →
      containsSub (strOfExn c4exn) "ValidationException" = true →
      fallbackMessage (strOfExn c4exn) = validationFallback) ∧
    (containsSub (strOfExn c4exn) "Unable to locate credentials" = false →
      containsSub (strOfExn c4exn) "ValidationException" = false →
      containsSub (strOfExn c4exn) "ThrottlingException" = true →
      fallbackMessage (strOfExn c4exn) = throttlingFallback) ∧
    (containsSub (strOfExn c4exn) "Unable to locate credentials" = false →
      containsSub (strOfExn c4exn) "ValidationException" = false →
      containsSub (strOfExn c4exn) "ThrottlingException" = false →
      (containsSub (strLower (strOfExn c4exn)) "event loop" ||
       containsSub (strLower (strOfExn c4exn)) "asyncio") = true →
      fallbackMessage (strOfExn c4exn) = eventLoopFallback) ∧
    (containsSub (strOfExn c4exn) "Unable to locate credentials" = false →
      containsSub (strOfExn c4exn) "ValidationException" = false →
      containsSub (strOfExn c4exn) "ThrottlingException" = false →
      (containsSub (strLower (strOfExn c4exn)) "event loop" ||
       containsSub (strLower (strOfExn c4exn)) "asyncio") = false →
      fallbackMessage (strOfExn c4exn) = genericFallback (strOfExn c4exn)) :=
  process_message_catches_and_categorizes c4parse sampleTools
    (fun _ _ => Json.obj []) (fun _ _ _ => "ok") (.ok c4resp) "hello"
    c4exn rfl
